import Mathlib

/-!
Shallow embedding of the Gauntlet DAO-proposal governance workflow.

The repository holds two near-duplicate copies of the workflow:
`src/main.py` (label-based vote parsing) and `src/ml-model/main.py`
(JSON-based vote parsing), plus `src/ml-model/server.py` with the
keyword-based `/classify` endpoint.  Definitions without an `ml_` or
`Ml` marker embed `src/main.py`; those with it embed the
`src/ml-model` copy.  LLM calls are modelled as oracle functions passed
in as arguments; a call that raises in Python is an `Except.error`.
Python floats are modelled as exact rationals.
-/

/-- One validator vote, mirroring the `ValidatorVote` TypedDict. -/
structure Vote where
  validator_id : String
  role : String
  vote : String
  confidence : Int
  reasoning : String
  concerns : List String
deriving Repr, DecidableEq

/-- One debate entry, mirroring the dicts appended in `_debate_round_node`. -/
structure DebateArg where
  validator_id : String
  side : String
  argument : String
  original_confidence : Int
deriving Repr, DecidableEq

/-- The `generated_proposal` dict after the draft stage: either the
`DAOProposalOutput` fields (stringified as the fungibility node reads them
via `str(proposal.get(k, ""))`) or the `{"error": msg}` dict. -/
structure ProposalFields where
  title : String
  abstract : String
  motivation : String
  actions : String
  expected_impact : String
  requested_funds : String
  domain : String
deriving Repr, DecidableEq

inductive Proposal where
  | artifact : ProposalFields → Proposal
  | draftError : String → Proposal
deriving Repr, DecidableEq

/-- The decision token captured by the regex `DECISION:\s*(APPROVE|REJECT)`
(case-insensitive): up to case, the captured group is one of these two. -/
inductive DecisionTok where
  | APPROVE : DecisionTok
  | REJECT : DecisionTok
deriving Repr, DecidableEq

/-- Python `.upper()` applied to the captured decision group. -/
def DecisionTok.upper : DecisionTok → String
  | .APPROVE => "APPROVE"
  | .REJECT => "REJECT"

/-- Outcomes of the four `re.search` calls in `get_validator_vote`
(src/main.py): `CONFIDENCE:\s*(\d+)` captures a digit string, hence a
natural number. -/
structure RegexMatches where
  vote_match : Option DecisionTok
  conf_match : Option Nat
  reasoning_match : Option String
  concerns_match : Option String
deriving Repr, DecidableEq

/-- Outcomes of the three `re.search` calls in `get_final_vote` (src/main.py). -/
structure FinalRegexMatches where
  vote_match : Option DecisionTok
  conf_match : Option Nat
  reasoning_match : Option String
deriving Repr, DecidableEq

/-- The dict parsed by `json.loads` in the ml-model copy, as read through
`vote_data.get(...)`: each field is present or absent.  The decision string
is whatever the JSON held, not restricted to APPROVE/REJECT. -/
structure VoteData where
  vote : Option String
  confidence : Option Int
  reasoning : Option String
  concerns : Option (List String)
deriving Repr, DecidableEq

/-- The three state fields written by `_final_vote_node`. -/
structure FinalResult where
  final_votes : List Vote
  final_decision : String
  weighted_score : ℚ
deriving Repr, DecidableEq

/-- Output of the `/classify` endpoint in `src/ml-model/server.py`. -/
structure ClassifyResult where
  success : Bool
  domain : String
  fundible : String
  decision : String
  initial_approve : Nat
  initial_reject : Nat
  weighted_score : ℚ
deriving Repr, DecidableEq

/-- Python `s.lower()`: character-wise lowercasing. -/
def strLower (s : String) : String := ⟨s.data.map Char.toLower⟩

/-- Python `s.strip()`: drop leading and trailing whitespace. -/
def strTrim (s : String) : String :=
  ⟨((s.data.dropWhile Char.isWhitespace).reverse.dropWhile Char.isWhitespace).reverse⟩

/-- Python `s.split(',')` on the underlying character list. -/
def splitOnComma (l : List Char) : List (List Char) :=
  match l with
  | [] => [[]]
  | x :: xs =>
    match splitOnComma xs with
    | [] => [[x]]
    | h :: t => if x == ',' then [] :: h :: t else (x :: h) :: t

/-- Python `s.split(',')`. -/
def strSplitComma (s : String) : List String := (splitOnComma s.data).map (fun l => ⟨l⟩)

/-- Python `" ".join(parts)`. -/
def joinWithSpace : List String → String
  | [] => ""
  | [s] => s
  | s :: rest => s ++ " " ++ joinWithSpace rest

/-- Python `needle in hay` for strings: substring containment. -/
def isSubstring (needle hay : String) : Bool :=
  (List.range (hay.data.length + 1)).any
    (fun i => (hay.data.drop i).take needle.data.length == needle.data)

/-- `max(1, min(10, c))` from both vote parsers. -/
def clampConf (c : Int) : Int := max 1 (min 10 c)

/-- `approve_count = sum(1 for v in votes if v["vote"] == "APPROVE")`. -/
def approveCount (votes : List Vote) : Nat :=
  (votes.filter (fun v => v.vote == "APPROVE")).length

/-- `reject_count = len(votes) - approve_count`. -/
def rejectCount (votes : List Vote) : Nat := votes.length - approveCount votes

/-- `minority_side = "REJECT" if approve_count > reject_count else "APPROVE"`. -/
def minoritySide (votes : List Vote) : String :=
  if rejectCount votes < approveCount votes then "REJECT" else "APPROVE"

/-- `minority_validators = [v for v in votes if v["vote"] == minority_side]`. -/
def minorityMembers (votes : List Vote) : List Vote :=
  votes.filter (fun v => v.vote == minoritySide votes)

/-- The minority-selection logic at the head of `_debate_round_node`
(identical in both copies): `none` means debate is skipped. -/
def minoritySelection (votes : List Vote) : Option (String × List Vote) :=
  if approveCount votes = rejectCount votes then none
  else if (minorityMembers votes).length = 0 ∨ (minorityMembers votes).length = votes.length
  then none
  else some (minoritySide votes, minorityMembers votes)

/-- `weighted_score = sum((1 if v["vote"] == "APPROVE" else -1) * (v["confidence"] / 10) for v in votes)`. -/
def weightedScore (votes : List Vote) : ℚ :=
  (votes.map (fun v =>
    (if v.vote = "APPROVE" then (1 : ℚ) else -1) * ((v.confidence : ℚ) / 10))).sum

/-- The same signed confidence sum, kept in ℤ before the division by 10. -/
def intScore (votes : List Vote) : ℤ :=
  (votes.map (fun v => if v.vote = "APPROVE" then v.confidence else -v.confidence)).sum

/-- Python 3 `round` to the nearest integer: round-half-to-even. -/
def roundHalfEven (x : ℚ) : ℤ :=
  if x - ⌊x⌋ < 1/2 then ⌊x⌋
  else if (1 : ℚ)/2 < x - ⌊x⌋ then ⌊x⌋ + 1
  else if ⌊x⌋ % 2 = 0 then ⌊x⌋ else ⌊x⌋ + 1

/-- Python `round(x, 2)`. -/
def round2 (x : ℚ) : ℚ := (roundHalfEven (x * 100) : ℚ) / 100

/-- The configured reviewers: (validator id, focus string), in
configuration order, from `self.validator_roles` (identical in both copies;
the criteria lists feed only the prompts, which the oracle models). -/
def validator_roles : List (String × String) :=
  [("financial_auditor",
    "Evaluate budget feasibility, ROI, fund allocation, and financial sustainability"),
   ("technical_reviewer",
    "Assess implementation complexity, technical feasibility, and potential risks"),
   ("community_advocate",
    "Judge community benefit, inclusivity, alignment with DAO mission"),
   ("security_analyst",
    "Identify security vulnerabilities, smart contract risks, and attack vectors"),
   ("governance_expert",
    "Check DAO governance compliance, voting procedures, and constitutional alignment")]

/-- `get_validator_vote` in src/main.py `_parallel_initial_vote_node`:
parses the oracle text via the four regexes; on an oracle exception returns
the fail-safe REJECT vote with confidence 3. -/
def get_validator_vote (validator_id focus : String)
    (oracle : Except String RegexMatches) : Vote :=
  match oracle with
  | Except.error e =>
    { validator_id := validator_id
      role := (strSplitComma focus).headD ""
      vote := "REJECT"
      confidence := 3
      reasoning := "Error in evaluation: " ++ e
      concerns := ["Technical error in voting process"] }
  | Except.ok m =>
    { validator_id := validator_id
      role := (strSplitComma focus).headD ""
      vote := match m.vote_match with | some t => t.upper | none => "REJECT"
      confidence := clampConf (match m.conf_match with | some n => (n : Int) | none => 5)
      reasoning := match m.reasoning_match with | some r => strTrim r | none => "No reasoning provided"
      concerns := match m.concerns_match with
        | some s => (((strSplitComma s).map strTrim).filter (fun c => c != "")).take 3
        | none => [] }

/-- `_parallel_initial_vote_node` in src/main.py: empty vote list on a draft
error, otherwise one parsed vote per configured reviewer, in order. -/
def parallel_initial_vote_node (p : Proposal)
    (oracle : String → String → Except String RegexMatches) : List Vote :=
  match p with
  | .draftError _ => []
  | .artifact _ =>
    validator_roles.map (fun r => get_validator_vote r.1 r.2 (oracle r.1 r.2))

/-- `_debate_round_node` in src/main.py: one rebuttal-oracle call per
minority member; a successful call appends a trimmed argument, a failed call
is skipped (`except Exception: pass`). -/
def debate_round_node (votes : List Vote)
    (oracle : Vote → Except String String) : List DebateArg :=
  if votes = [] then []
  else
    match minoritySelection votes with
    | none => []
    | some (side, minority) =>
      minority.filterMap (fun v =>
        match oracle v with
        | Except.ok content =>
          some { validator_id := v.validator_id
                 side := side
                 argument := strTrim content
                 original_confidence := v.confidence }
        | Except.error _ => none)

/-- `get_final_vote` in src/main.py `_final_vote_node`: re-parse with the
original vote's fields as defaults; on an oracle exception return the
original vote unchanged. -/
def get_final_vote (original : Vote)
    (oracle : Except String FinalRegexMatches) : Vote :=
  match oracle with
  | Except.error _ => original
  | Except.ok m =>
    { validator_id := original.validator_id
      role := original.role
      vote := match m.vote_match with | some t => t.upper | none => original.vote
      confidence := clampConf (match m.conf_match with
        | some n => (n : Int) | none => original.confidence)
      reasoning := match m.reasoning_match with
        | some r => strTrim r | none => original.reasoning
      concerns := original.concerns }

/-- `_final_vote_node` in src/main.py: the empty-votes fast path writes the
-10.0 sentinel; the empty-debate path reuses the initial votes and reports
the raw sum; the re-vote path re-queries every reviewer and reports the
rounded sum, deciding on the raw sum. -/
def final_vote_node (votes : List Vote) (debate_args : List DebateArg)
    (oracle : Vote → Except String FinalRegexMatches) : FinalResult :=
  if votes = [] then
    { final_votes := []
      final_decision := "REJECTED"
      weighted_score := -10 }
  else if debate_args = [] then
    { final_votes := votes
      final_decision := if 0 < weightedScore votes then "APPROVED" else "REJECTED"
      weighted_score := weightedScore votes }
  else
    { final_votes := votes.map (fun v => get_final_vote v (oracle v))
      final_decision :=
        if 0 < weightedScore (votes.map (fun v => get_final_vote v (oracle v)))
        then "APPROVED" else "REJECTED"
      weighted_score := round2 (weightedScore (votes.map (fun v => get_final_vote v (oracle v)))) }

/-- The `monetary_keywords` list of `_determine_fungibility_node`
(identical in both copies). -/
def monetary_keywords : List String :=
  ["fund", "reward", "grant", "payment", "budget", "payout", "compensation",
   "bounty", "incentive", "stipend",
   "cost", "fee", "expense", "allocation", "disburse",
   "token", "stablecoin", "pyusd", "usdc", "dai", "eth", "matic", "coin",
   "asset", "nft", "share", "crypto",
   "treasury", "capital", "fiat", "vault", "reserve", "yield", "pool",
   "swap", "exchange", "loan", "borrow",
   "value transfer", "escrow", "transfer", "send", "receive"]

/-- The search text of `_determine_fungibility_node`: the six lower-cased
proposal fields followed by the lower-cased challenge text, joined with
single spaces. -/
def fungibilityText (f : ProposalFields) (challenge_text : String) : String :=
  joinWithSpace
    [strLower f.title, strLower f.abstract, strLower f.motivation,
     strLower f.actions, strLower f.expected_impact, strLower f.requested_funds,
     strLower challenge_text]

/-- `True` exactly when the `"error" in proposal` test of
`_determine_fungibility_node` succeeds. -/
def proposalHasError : Proposal → Bool
  | .draftError _ => true
  | .artifact _ => false

/-- `_determine_fungibility_node` (identical logic in both copies):
"no" on a REJECTED decision or a draft error, else "yes" iff some monetary
keyword is a substring of the search text.  (The `not proposal` test of the
Python code cannot fire after the draft stage, which always writes a
non-empty dict.) -/
def determine_fungibility_node (p : Proposal) (decision : String)
    (challenge_text : String) : String :=
  if decision = "REJECTED" ∨ proposalHasError p = true then "no"
  else
    match p with
    | .draftError _ => "no"
    | .artifact f =>
      if monetary_keywords.any (fun k => isSubstring k (fungibilityText f challenge_text))
      then "yes" else "no"

/-- `get_validator_vote` in src/ml-model/main.py: reads the parsed JSON with
`vote_data.get(...)` defaults — the vote string is passed through as-is and
the concerns list is not capped; any exception (oracle or JSON) yields the
fail-safe REJECT vote with confidence 1. -/
def ml_get_validator_vote (validator_id focus : String)
    (oracle : Except String VoteData) : Vote :=
  match oracle with
  | Except.error e =>
    { validator_id := validator_id
      role := focus
      vote := "REJECT"
      confidence := 1
      reasoning := "Error: " ++ e
      concerns := ["Failed to process vote"] }
  | Except.ok d =>
    { validator_id := validator_id
      role := focus
      vote := d.vote.getD "REJECT"
      confidence := clampConf (d.confidence.getD 5)
      reasoning := d.reasoning.getD "No reasoning provided"
      concerns := d.concerns.getD [] }

/-- `_parallel_initial_vote_node` in src/ml-model/main.py. -/
def ml_parallel_initial_vote_node (p : Proposal)
    (oracle : String → Except String VoteData) : List Vote :=
  match p with
  | .draftError _ => []
  | .artifact _ =>
    validator_roles.map (fun r => ml_get_validator_vote r.1 r.2 (oracle r.1))

/-- `_debate_round_node` in src/ml-model/main.py: same minority selection,
but a failed rebuttal call appends a placeholder argument carrying the error
message instead of being dropped. -/
def ml_debate_round_node (votes : List Vote)
    (oracle : Vote → Except String String) : List DebateArg :=
  if votes = [] then []
  else
    match minoritySelection votes with
    | none => []
    | some (_, minority) =>
      minority.map (fun v =>
        match oracle v with
        | Except.ok content =>
          { validator_id := v.validator_id
            side := v.vote
            argument := strTrim content
            original_confidence := v.confidence }
        | Except.error e =>
          { validator_id := v.validator_id
            side := v.vote
            argument := "Error generating argument: " ++ e
            original_confidence := v.confidence })

/-- `get_final_vote` in src/ml-model/main.py: JSON fields default to the
original vote's values; any exception returns the original vote unchanged. -/
def ml_get_final_vote (original : Vote)
    (oracle : Except String VoteData) : Vote :=
  match oracle with
  | Except.error _ => original
  | Except.ok d =>
    { validator_id := original.validator_id
      role := original.role
      vote := d.vote.getD original.vote
      confidence := clampConf (d.confidence.getD original.confidence)
      reasoning := d.reasoning.getD original.reasoning
      concerns := original.concerns }

/-- `_final_vote_node` in src/ml-model/main.py: the empty-votes fast path
writes weighted score 0.0 (not the -10.0 sentinel of the other copy); the
two scoring branches both round the reported score. -/
def ml_final_vote_node (votes : List Vote) (debate_args : List DebateArg)
    (oracle : Vote → Except String VoteData) : FinalResult :=
  if votes = [] then
    { final_votes := []
      final_decision := "REJECTED"
      weighted_score := 0 }
  else if debate_args = [] then
    { final_votes := votes
      final_decision := if 0 < weightedScore votes then "APPROVED" else "REJECTED"
      weighted_score := round2 (weightedScore votes) }
  else
    { final_votes := votes.map (fun v => ml_get_final_vote v (oracle v))
      final_decision :=
        if 0 < weightedScore (votes.map (fun v => ml_get_final_vote v (oracle v)))
        then "APPROVED" else "REJECTED"
      weighted_score := round2 (weightedScore (votes.map (fun v => ml_get_final_vote v (oracle v)))) }

/-- The `money_keywords` list of `classify_challenge` in
src/ml-model/server.py. -/
def money_keywords : List String :=
  ["$", "usd", "pyusd", "usdc", "fund", "reward", "payment", "prize",
   "money", "pay", "dollar"]

/-- The `domain` keyword chain of `classify_challenge`. -/
def classifyDomain (text_lower : String) : String :=
  if ["defi", "lending", "protocol", "swap", "liquidity", "yield"].any
      (fun w => isSubstring w text_lower) then "DeFi"
  else if ["nft", "token", "mint", "collectible", "art"].any
      (fun w => isSubstring w text_lower) then "NFT"
  else if ["game", "gaming", "play", "metaverse"].any
      (fun w => isSubstring w text_lower) then "Gaming"
  else if ["dao", "governance", "voting", "proposal"].any
      (fun w => isSubstring w text_lower) then "DAO"
  else if ["finance", "fintech", "banking", "payment"].any
      (fun w => isSubstring w text_lower) then "FinTech"
  else if ["smart contract", "blockchain", "web3", "dapp"].any
      (fun w => isSubstring w text_lower) then "Blockchain"
  else "General"

/-- The `is_fundible` flag of `classify_challenge`: some money keyword is a
substring of the lower-cased challenge text, or the requested reward is
positive. -/
def isFundible (challenge_text : String) (requested_reward : ℚ) : Bool :=
  money_keywords.any (fun k => isSubstring k (strLower challenge_text))
    || decide (0 < requested_reward)

/-- `classify_challenge` in src/ml-model/server.py: pure keyword
classification over (challenge text, requested reward), with fabricated
voting counts and score; it never invokes the drafting/voting workflow. -/
def classify_challenge (challenge_text : String) (requested_reward : ℚ) : ClassifyResult :=
  { success := true
    domain := classifyDomain (strLower challenge_text)
    fundible := if isFundible challenge_text requested_reward then "yes" else "no"
    decision := if isFundible challenge_text requested_reward then "APPROVED" else "REJECTED"
    initial_approve := if isFundible challenge_text requested_reward then 5 else 0
    initial_reject := if isFundible challenge_text requested_reward then 0 else 5
    weighted_score := if isFundible challenge_text requested_reward then 9/10 else 1/10 }

lemma one_le_clampConf (c : Int) : 1 ≤ clampConf c := le_max_left 1 _

lemma clampConf_le_ten (c : Int) : clampConf c ≤ 10 :=
  max_le (by norm_num) (min_le_left _ _)

lemma clampConf_eq_self (c : Int) (h1 : 1 ≤ c) (h2 : c ≤ 10) : clampConf c = c := by
  unfold clampConf
  rw [min_eq_right h2, max_eq_right h1]

lemma weightedScore_eq_intScore (votes : List Vote) :
    weightedScore votes = (intScore votes : ℚ) / 10 := by
  induction votes with
  | nil => simp [weightedScore, intScore]
  | cons v vs ih =>
    unfold weightedScore intScore at *
    simp only [List.map_cons, List.sum_cons] at *
    rw [ih]
    by_cases h : v.vote = "APPROVE" <;> simp only [h, if_true, if_false, if_pos, if_neg] <;>
      push_cast <;> ring

lemma roundHalfEven_intCast (n : ℤ) : roundHalfEven (n : ℚ) = n := by
  unfold roundHalfEven
  rw [Int.floor_intCast]
  norm_num

lemma round2_tenth (q : ℤ) : round2 ((q : ℚ) / 10) = (q : ℚ) / 10 := by
  unfold round2
  have h : ((q : ℚ) / 10) * 100 = ((q * 10 : ℤ) : ℚ) := by push_cast; ring
  rw [h, roundHalfEven_intCast]
  push_cast
  ring

lemma round2_weightedScore (votes : List Vote) :
    round2 (weightedScore votes) = weightedScore votes := by
  rw [weightedScore_eq_intScore, round2_tenth]

/-- Python truthiness of `Except`: `true` on a successful call. -/
def exceptIsOk {ε α : Type} : Except ε α → Bool
  | Except.ok _ => true
  | Except.error _ => false

lemma length_filterMap_eq_length_filter_isSome {α β : Type} (l : List α) (f : α → Option β) :
    (l.filterMap f).length = (l.filter (fun a => (f a).isSome)).length := by
  induction l with
  | nil => simp
  | cons a t ih =>
    cases h : f a with
    | none => simp [List.filterMap_cons, List.filter_cons, h, ih]
    | some b => simp [List.filterMap_cons, List.filter_cons, h, ih]

/-- A vote literal for concrete evaluations. -/
def mkVote (id v : String) (conf : Int) : Vote :=
  { validator_id := id, role := "auditor", vote := v, confidence := conf
    reasoning := "r", concerns := [] }

/-- The worked example of the spec: 3 APPROVE at {8,6,4}, 2 REJECT at {10,10}. -/
def specVotes : List Vote :=
  [mkVote "a" "APPROVE" 8, mkVote "b" "APPROVE" 6, mkVote "c" "APPROVE" 4,
   mkVote "d" "REJECT" 10, mkVote "e" "REJECT" 10]

/-- A final-round oracle whose every call fails. -/
def finalOracleDown : Vote → Except String FinalRegexMatches :=
  fun _ => Except.error "oracle down"

/-- Claim C1: for every non-empty final VoteSet the reported weighted score
equals the signed confidence sum rounded to 2 decimal digits, and the
decision is APPROVED exactly when that score is strictly positive
(a tie at 0 is REJECTED). -/
theorem scoring_engine_postcondition (votes : List Vote) (debate_args : List DebateArg)
    (oracle : Vote → Except String FinalRegexMatches) (hne : votes ≠ []) :
    (final_vote_node votes debate_args oracle).weighted_score
      = round2 (weightedScore (final_vote_node votes debate_args oracle).final_votes) ∧
    (final_vote_node votes debate_args oracle).final_decision
      = (if 0 < round2 (weightedScore (final_vote_node votes debate_args oracle).final_votes)
         then "APPROVED" else "REJECTED") := by
  unfold final_vote_node
  rw [if_neg hne]
  by_cases hd : debate_args = []
  · rw [if_pos hd]
    exact ⟨(round2_weightedScore votes).symm, by rw [round2_weightedScore]⟩
  · rw [if_neg hd]
    exact ⟨rfl, by rw [round2_weightedScore]⟩

/-- Witness for C1 at the spec's worked example with no debate. -/
theorem scoring_engine_postcondition_witness :
    specVotes ≠ [] ∧
    ((final_vote_node specVotes [] finalOracleDown).weighted_score
        = round2 (weightedScore (final_vote_node specVotes [] finalOracleDown).final_votes) ∧
      (final_vote_node specVotes [] finalOracleDown).final_decision
        = (if 0 < round2 (weightedScore (final_vote_node specVotes [] finalOracleDown).final_votes)
           then "APPROVED" else "REJECTED")) :=
  ⟨by decide, scoring_engine_postcondition specVotes [] finalOracleDown (by decide)⟩

/-- Counterexample to C2 as stated: with an empty VoteSet the ml-model copy
reports weighted score 0.0 — not a negative sentinel. -/
theorem terminal_fast_path_counterexample :
    (ml_final_vote_node [] [] (fun _ => Except.error "down")).final_decision = "REJECTED" ∧
    (ml_final_vote_node [] [] (fun _ => Except.error "down")).weighted_score = 0 ∧
    ¬ (ml_final_vote_node [] [] (fun _ => Except.error "down")).weighted_score < 0 :=
  ⟨rfl, rfl, lt_irrefl 0⟩

/-- Claim C2 (amended): a draft error yields an empty VoteSet, and an empty
VoteSet forces decision REJECTED bypassing the scoring formula in both
copies; the bypass score is the -10.0 sentinel in src/main.py but 0.0 in
src/ml-model/main.py. -/
theorem terminal_fast_path_amended (debate_args : List DebateArg)
    (o : Vote → Except String FinalRegexMatches)
    (oml : Vote → Except String VoteData) (e : String)
    (io : String → String → Except String RegexMatches)
    (ioml : String → Except String VoteData) :
    final_vote_node [] debate_args o
      = { final_votes := [], final_decision := "REJECTED", weighted_score := -10 } ∧
    ml_final_vote_node [] debate_args oml
      = { final_votes := [], final_decision := "REJECTED", weighted_score := 0 } ∧
    parallel_initial_vote_node (Proposal.draftError e) io = [] ∧
    ml_parallel_initial_vote_node (Proposal.draftError e) ioml = [] :=
  ⟨rfl, rfl, rfl, rfl⟩

/-- Claim C3: with an empty debate-argument list the final VoteSet is the
initial VoteSet unchanged in both copies, independent of the re-vote oracle
(no re-query), and a tied VoteSet always produces an empty debate list. -/
theorem no_debate_identity (votes : List Vote)
    (o o2 : Vote → Except String FinalRegexMatches)
    (oml : Vote → Except String VoteData)
    (od odml : Vote → Except String String) (hne : votes ≠ []) :
    (final_vote_node votes [] o).final_votes = votes ∧
    (ml_final_vote_node votes [] oml).final_votes = votes ∧
    final_vote_node votes [] o = final_vote_node votes [] o2 ∧
    (approveCount votes = rejectCount votes →
      debate_round_node votes od = [] ∧ ml_debate_round_node votes odml = []) := by
  refine ⟨?_, ?_, ?_, fun h => ⟨?_, ?_⟩⟩
  · simp [final_vote_node, hne]
  · simp [ml_final_vote_node, hne]
  · simp [final_vote_node, hne]
  · simp [debate_round_node, minoritySelection, hne, h]
  · simp [ml_debate_round_node, minoritySelection, hne, h]

/-- A tied VoteSet: 2 APPROVE, 2 REJECT. -/
def tiedVotes : List Vote :=
  [mkVote "a" "APPROVE" 9, mkVote "b" "APPROVE" 2,
   mkVote "c" "REJECT" 5, mkVote "d" "REJECT" 6]

/-- Witness for C3 at a concrete tied VoteSet. -/
theorem no_debate_identity_witness :
    tiedVotes ≠ [] ∧
    ((final_vote_node tiedVotes [] finalOracleDown).final_votes = tiedVotes ∧
      (ml_final_vote_node tiedVotes [] (fun _ => Except.error "down")).final_votes = tiedVotes ∧
      final_vote_node tiedVotes [] finalOracleDown
        = final_vote_node tiedVotes [] (fun _ => Except.ok ⟨none, none, none⟩) ∧
      (approveCount tiedVotes = rejectCount tiedVotes →
        debate_round_node tiedVotes (fun _ => Except.ok "arg") = [] ∧
        ml_debate_round_node tiedVotes (fun _ => Except.ok "arg") = [])) :=
  ⟨by decide,
   no_debate_identity tiedVotes finalOracleDown (fun _ => Except.ok ⟨none, none, none⟩)
     (fun _ => Except.error "down") (fun _ => Except.ok "arg") (fun _ => Except.ok "arg")
     (by decide)⟩

/-- Claim C6: a per-reviewer oracle failure during the final round keeps
that reviewer's original initial vote unchanged in every field, in both
copies. -/
theorem final_round_failure_atomicity (original : Vote) (e1 e2 : String) :
    get_final_vote original (Except.error e1) = original ∧
    ml_get_final_vote original (Except.error e2) = original :=
  ⟨rfl, rfl⟩

/-- Claim C4: for a non-empty VoteSet, debate is skipped on a tie and when
the minority-member list is empty or the whole set; otherwise the minority
side is REJECT when approvals outnumber rejections and APPROVE otherwise,
and the members are exactly the votes on that side. -/
theorem minority_selector_spec (votes : List Vote) (hne : votes ≠ []) :
    (approveCount votes = rejectCount votes →
      minoritySelection votes = none ∧
      ∀ o, debate_round_node votes o = []) ∧
    (approveCount votes ≠ rejectCount votes →
      minoritySide votes
          = (if rejectCount votes < approveCount votes then "REJECT" else "APPROVE") ∧
      minorityMembers votes = votes.filter (fun v => v.vote == minoritySide votes) ∧
      (((minorityMembers votes).length = 0 ∨ (minorityMembers votes).length = votes.length) →
        minoritySelection votes = none ∧
        ∀ o, debate_round_node votes o = []) ∧
      (¬ ((minorityMembers votes).length = 0 ∨ (minorityMembers votes).length = votes.length) →
        minoritySelection votes = some (minoritySide votes, minorityMembers votes))) := by
  refine ⟨fun h => ⟨?_, fun o => ?_⟩,
    fun h => ⟨rfl, rfl, fun hm => ⟨?_, fun o => ?_⟩, fun hm => ?_⟩⟩
  · unfold minoritySelection
    rw [if_pos h]
  · simp [debate_round_node, minoritySelection, hne, h]
  · unfold minoritySelection
    rw [if_neg h, if_pos hm]
  · unfold debate_round_node minoritySelection
    rw [if_neg hne, if_neg h, if_pos hm]
  · unfold minoritySelection
    rw [if_neg h, if_neg hm]

/-- Witness for C4 at the spec's worked example (3 APPROVE vs 2 REJECT:
the minority side is REJECT with exactly the two REJECT votes). -/
theorem minority_selector_spec_witness :
    specVotes ≠ [] ∧
    approveCount specVotes ≠ rejectCount specVotes ∧
    ¬ ((minorityMembers specVotes).length = 0 ∨
        (minorityMembers specVotes).length = specVotes.length) ∧
    minoritySelection specVotes = some (minoritySide specVotes, minorityMembers specVotes) :=
  ⟨by decide, by decide, by decide,
    ((minority_selector_spec specVotes (by decide)).2 (by decide)).2.2.2 (by decide)⟩

/-- A proposal artifact whose text contains monetary keywords. -/
def sampleFields : ProposalFields :=
  { title := "Treasury Dashboard", abstract := "analytics", motivation := "m"
    actions := "[]", expected_impact := "i", requested_funds := "5000 PYUSD"
    domain := "DAO" }

/-- Claim C5: the classification is "no" whenever the decision is not
APPROVED or the proposal is a draft error; with an APPROVED decision on a
real artifact it is "yes" exactly when a monetary keyword occurs in the
concatenated lower-cased search text.  The final-vote stage only ever emits
APPROVED or REJECTED, so the decision hypothesis covers every run. -/
theorem fungibility_classifier_spec (p : Proposal) (d ct : String)
    (hd : d = "APPROVED" ∨ d = "REJECTED") :
    ((d ≠ "APPROVED" ∨ proposalHasError p = true) →
      determine_fungibility_node p d ct = "no") ∧
    (∀ f, p = Proposal.artifact f → d = "APPROVED" →
      (determine_fungibility_node p d ct = "yes" ↔
        monetary_keywords.any (fun k => isSubstring k (fungibilityText f ct)) = true)) ∧
    (∀ votes dargs o, (final_vote_node votes dargs o).final_decision = "APPROVED" ∨
      (final_vote_node votes dargs o).final_decision = "REJECTED") := by
  refine ⟨fun h => ?_, fun f hp hda => ?_, fun votes dargs o => ?_⟩
  · rcases hd with hda | hdr
    · rcases h with hne | herr
      · exact absurd hda hne
      · cases p with
        | artifact f => simp [proposalHasError] at herr
        | draftError e =>
          unfold determine_fungibility_node
          rw [if_pos (Or.inr herr)]
    · unfold determine_fungibility_node
      rw [if_pos (Or.inl hdr)]
  · subst hp
    subst hda
    unfold determine_fungibility_node
    rw [if_neg (by simp [proposalHasError])]
    show (if monetary_keywords.any (fun k => isSubstring k (fungibilityText f ct)) = true
          then "yes" else "no") = "yes" ↔ _
    by_cases hk : monetary_keywords.any (fun k => isSubstring k (fungibilityText f ct)) = true
    · rw [if_pos hk]
      simp [hk]
    · rw [if_neg hk]
      simp [hk]
  · unfold final_vote_node
    split_ifs <;> simp

/-- Witness for C5: the spec's "treasury" example — same artifact text,
classification "yes" when APPROVED and "no" when REJECTED. -/
theorem fungibility_classifier_spec_witness :
    determine_fungibility_node (Proposal.artifact sampleFields) "APPROVED"
        "community treasury dashboard" = "yes" ∧
    determine_fungibility_node (Proposal.artifact sampleFields) "REJECTED"
        "community treasury dashboard" = "no" :=
  ⟨((fungibility_classifier_spec (Proposal.artifact sampleFields) "APPROVED"
      "community treasury dashboard" (Or.inl rfl)).2.1 sampleFields rfl rfl).mpr (by decide),
   (fungibility_classifier_spec (Proposal.artifact sampleFields) "REJECTED"
      "community treasury dashboard" (Or.inr rfl)).1 (Or.inl (by decide))⟩

/-- A lopsided VoteSet: 4 APPROVE, 1 REJECT, so v5 is the whole minority. -/
def lopsidedVotes : List Vote :=
  [mkVote "v1" "APPROVE" 8, mkVote "v2" "APPROVE" 7, mkVote "v3" "APPROVE" 6,
   mkVote "v4" "APPROVE" 5, mkVote "v5" "REJECT" 7]

/-- Counterexample to C7 as stated: in the ml-model copy a minority member
whose rebuttal call fails still gets an entry — a placeholder argument
carrying the error message — so an entry does appear for that member. -/
theorem debate_failure_counterexample :
    minoritySelection lopsidedVotes = some ("REJECT", [mkVote "v5" "REJECT" 7]) ∧
    ml_debate_round_node lopsidedVotes (fun _ => Except.error "boom")
      = [{ validator_id := "v5", side := "REJECT"
           argument := "Error generating argument: boom", original_confidence := 7 }] := by
  decide

/-- Claim C7 (amended): in src/main.py a failed rebuttal call is dropped —
the debate list has exactly one entry per successful call, every entry comes
from a successful call, and the list may be shorter than the minority; in
src/ml-model/main.py a failed call instead contributes a placeholder entry,
so the list always has one entry per minority member. -/
theorem debate_failure_amended (votes : List Vote)
    (oracle : Vote → Except String String) (side : String) (minority : List Vote)
    (hsel : minoritySelection votes = some (side, minority)) :
    (debate_round_node votes oracle).length
        = (minority.filter (fun v => exceptIsOk (oracle v))).length ∧
    (∀ a ∈ debate_round_node votes oracle, ∃ v ∈ minority, ∃ content,
      oracle v = Except.ok content ∧
      a = { validator_id := v.validator_id, side := side
            argument := strTrim content, original_confidence := v.confidence }) ∧
    (debate_round_node votes oracle).length ≤ minority.length ∧
    (ml_debate_round_node votes oracle).length = minority.length := by
  have hne : votes ≠ [] := by
    intro hv
    rw [hv] at hsel
    simp [minoritySelection, approveCount, rejectCount, minorityMembers] at hsel
  have hmain : debate_round_node votes oracle
      = minority.filterMap (fun v =>
          match oracle v with
          | Except.ok content =>
            some { validator_id := v.validator_id, side := side
                   argument := strTrim content, original_confidence := v.confidence }
          | Except.error _ => none) := by
    unfold debate_round_node
    rw [if_neg hne, hsel]
  refine ⟨?_, ?_, ?_, ?_⟩
  · rw [hmain, length_filterMap_eq_length_filter_isSome]
    congr 1
    apply List.filter_congr
    intro v _
    cases h : oracle v <;> simp [exceptIsOk, h]
  · intro a ha
    rw [hmain, List.mem_filterMap] at ha
    obtain ⟨v, hv, hfa⟩ := ha
    cases h : oracle v with
    | error e => rw [h] at hfa; simp at hfa
    | ok content =>
      rw [h] at hfa
      exact ⟨v, hv, content, h, (Option.some_inj.mp hfa).symm⟩
  · rw [hmain]
    exact List.length_filterMap_le _ _
  · unfold ml_debate_round_node
    rw [if_neg hne, hsel]
    exact List.length_map _ _

/-- Witness for C7 (amended) at the lopsided VoteSet with every call failing:
the debate list is empty, shorter than the one-member minority. -/
theorem debate_failure_amended_witness :
    minoritySelection lopsidedVotes = some ("REJECT", [mkVote "v5" "REJECT" 7]) ∧
    (debate_round_node lopsidedVotes (fun _ => Except.error "x")).length
      ≤ [mkVote "v5" "REJECT" 7].length :=
  ⟨by decide,
   (debate_failure_amended lopsidedVotes (fun _ => Except.error "x") "REJECT"
      [mkVote "v5" "REJECT" 7] (by decide)).2.2.1⟩

/-- Claim C8: every vote produced by any parser in any round — initial
parse, error fallback, or final re-vote — has confidence in [1,10]; an
absent confidence defaults to 5 initially and to the original confidence on
re-vote. -/
theorem confidence_range_invariant (vid focus : String)
    (o1 : Except String RegexMatches) (o2 : Except String VoteData)
    (ov1 ov2 : Vote)
    (o3 : Except String FinalRegexMatches) (o4 : Except String VoteData)
    (m : RegexMatches) (fm : FinalRegexMatches)
    (h1 : 1 ≤ ov1.confidence ∧ ov1.confidence ≤ 10)
    (h2 : 1 ≤ ov2.confidence ∧ ov2.confidence ≤ 10) :
    (1 ≤ (get_validator_vote vid focus o1).confidence ∧
      (get_validator_vote vid focus o1).confidence ≤ 10) ∧
    (1 ≤ (ml_get_validator_vote vid focus o2).confidence ∧
      (ml_get_validator_vote vid focus o2).confidence ≤ 10) ∧
    (1 ≤ (get_final_vote ov1 o3).confidence ∧ (get_final_vote ov1 o3).confidence ≤ 10) ∧
    (1 ≤ (ml_get_final_vote ov2 o4).confidence ∧ (ml_get_final_vote ov2 o4).confidence ≤ 10) ∧
    (m.conf_match = none → (get_validator_vote vid focus (Except.ok m)).confidence = 5) ∧
    (fm.conf_match = none → (get_final_vote ov1 (Except.ok fm)).confidence = ov1.confidence) := by
  refine ⟨?_, ?_, ?_, ?_, fun hc => ?_, fun hc => ?_⟩
  · cases o1 with
    | error e => exact ⟨by norm_num [get_validator_vote], by norm_num [get_validator_vote]⟩
    | ok mm => exact ⟨one_le_clampConf _, clampConf_le_ten _⟩
  · cases o2 with
    | error e => exact ⟨by norm_num [ml_get_validator_vote], by norm_num [ml_get_validator_vote]⟩
    | ok d => exact ⟨one_le_clampConf _, clampConf_le_ten _⟩
  · cases o3 with
    | error e => exact h1
    | ok mm => exact ⟨one_le_clampConf _, clampConf_le_ten _⟩
  · cases o4 with
    | error e => exact h2
    | ok d => exact ⟨one_le_clampConf _, clampConf_le_ten _⟩
  · simp only [get_validator_vote, hc]
    decide
  · simp only [get_final_vote, hc]
    exact clampConf_eq_self _ h1.1 h1.2

/-- Witness for C8 at concrete inputs: a confidence of 99 in the oracle
reply is clamped into [1,10]. -/
theorem confidence_range_invariant_witness :
    (1 ≤ (mkVote "d" "REJECT" 7).confidence ∧ (mkVote "d" "REJECT" 7).confidence ≤ 10) ∧
    (1 ≤ (get_validator_vote "financial_auditor" "focus"
        (Except.ok ⟨some DecisionTok.APPROVE, some 99, none, none⟩)).confidence ∧
      (get_validator_vote "financial_auditor" "focus"
        (Except.ok ⟨some DecisionTok.APPROVE, some 99, none, none⟩)).confidence ≤ 10) :=
  ⟨by decide,
   (confidence_range_invariant "financial_auditor" "focus"
      (Except.ok ⟨some DecisionTok.APPROVE, some 99, none, none⟩) (Except.error "e")
      (mkVote "d" "REJECT" 7) (mkVote "d" "REJECT" 7)
      (Except.error "e") (Except.error "e")
      ⟨some DecisionTok.APPROVE, none, none, none⟩ ⟨none, none, none⟩
      (by decide) (by decide)).1⟩

/-- Claim C9 (amended): the label-based parser of src/main.py always yields
a decision that is exactly APPROVE or REJECT and at most 3 concerns; the
JSON parser of src/ml-model/main.py does not enforce either bound. -/
theorem vote_parser_well_formedness (vid focus : String)
    (o : Except String RegexMatches) :
    ((get_validator_vote vid focus o).vote = "APPROVE" ∨
      (get_validator_vote vid focus o).vote = "REJECT") ∧
    (get_validator_vote vid focus o).concerns.length ≤ 3 := by
  cases o with
  | error e => exact ⟨Or.inr rfl, by norm_num [get_validator_vote]⟩
  | ok m =>
    constructor
    · cases hm : m.vote_match with
      | none => right; simp [get_validator_vote, hm]
      | some t =>
        cases t with
        | APPROVE => left; simp [get_validator_vote, hm, DecisionTok.upper]
        | REJECT => right; simp [get_validator_vote, hm, DecisionTok.upper]
    · cases hm : m.concerns_match with
      | none => simp [get_validator_vote, hm]
      | some s =>
        simp only [get_validator_vote, hm]
        exact List.length_take_le _ _

/-- A syntactically valid JSON vote with an unrecognized decision token and
four concerns. -/
def badVoteData : VoteData :=
  { vote := some "MAYBE", confidence := some 5, reasoning := some "ok"
    concerns := some ["a", "b", "c", "d"] }

/-- Counterexample to C9 as stated: the ml-model JSON parser lets a vote
with decision "MAYBE" (outside {APPROVE, REJECT}) and 4 > 3 concerns enter
the VoteSet. -/
theorem vote_parser_counterexample :
    ((ml_parallel_initial_vote_node (Proposal.artifact sampleFields)
        (fun _ => Except.ok badVoteData)).map (fun v => v.vote)).head? = some "MAYBE" ∧
    ((ml_parallel_initial_vote_node (Proposal.artifact sampleFields)
        (fun _ => Except.ok badVoteData)).map (fun v => v.concerns.length)).head? = some 4 ∧
    ("MAYBE" ≠ "APPROVE" ∧ ("MAYBE" : String) ≠ "REJECT") ∧ 3 < 4 := by
  decide

/-- Claim C10: the /classify endpoint is a pure function of the request:
it answers fundible "yes" with decision APPROVED exactly when the requested
reward is positive or a money keyword occurs in the lower-cased challenge
text, and fabricates the 5-0 / 0-5 vote counts and the 0.9 / 0.1 score. -/
theorem classify_endpoint_spec (ct : String) (rr : ℚ) :
    ((classify_challenge ct rr).fundible = "yes" ∧
        (classify_challenge ct rr).decision = "APPROVED" ↔
      0 < rr ∨ money_keywords.any (fun k => isSubstring k (strLower ct)) = true) ∧
    ((classify_challenge ct rr).fundible = "yes" →
      (classify_challenge ct rr).decision = "APPROVED" ∧
      (classify_challenge ct rr).initial_approve = 5 ∧
      (classify_challenge ct rr).initial_reject = 0 ∧
      (classify_challenge ct rr).weighted_score = 9/10) ∧
    ((classify_challenge ct rr).fundible = "no" →
      (classify_challenge ct rr).decision = "REJECTED" ∧
      (classify_challenge ct rr).initial_approve = 0 ∧
      (classify_challenge ct rr).initial_reject = 5 ∧
      (classify_challenge ct rr).weighted_score = 1/10) ∧
    ((classify_challenge ct rr).fundible = "yes" ∨
      (classify_challenge ct rr).fundible = "no") := by
  by_cases h : isFundible ct rr = true
  · have hiff : 0 < rr ∨ money_keywords.any (fun k => isSubstring k (strLower ct)) = true := by
      have hh := h
      unfold isFundible at hh
      simp only [Bool.or_eq_true, decide_eq_true_eq] at hh
      tauto
    refine ⟨⟨fun _ => hiff, fun _ => ?_⟩, fun _ => ?_, fun hno => ?_, Or.inl ?_⟩
    · simp [classify_challenge, h]
    · simp [classify_challenge, h]
    · simp [classify_challenge, h] at hno
    · simp [classify_challenge, h]
  · have hnor : ¬ (0 < rr ∨ money_keywords.any (fun k => isSubstring k (strLower ct)) = true) := by
      have hh := h
      unfold isFundible at hh
      simp only [Bool.or_eq_true, decide_eq_true_eq] at hh
      tauto
    have hfun : (classify_challenge ct rr).fundible = "no" := by
      simp [classify_challenge, h]
    refine ⟨⟨fun hy => ?_, fun hr => absurd hr hnor⟩, fun hy => ?_, fun _ => ?_, Or.inr hfun⟩
    · rw [hfun] at hy
      exact absurd hy.1 (by decide)
    · rw [hfun] at hy
      exact absurd hy (by decide)
    · simp [classify_challenge, h]
